import Mathlib

set_option maxHeartbeats 1000000

/-!
Shallow embedding of the IVR conversational backend (src/backend.py).

The Python module keeps two global mutable objects, `active_calls` (a dict
from call id to a session dict) and `call_history` (a list of ended session
dicts).  We model a session dict as the structure `Session`, the pair of
globals as `Store`, and each HTTP endpoint as a pure function from a `Store`
(plus the request data and a timestamp) to a response value and the new
`Store`.  Timestamps (`datetime.utcnow()`) and generated uuids are modelled
as explicit inputs.  Fire-and-forget tasks (`asyncio.create_task` of
`play_tts_to_call` / `hangup_call`) are modelled by applying their eventual
store effect in the same step; `play_tts_to_call` has no store effect.
Confidence values are exact machine floats 0.9/0.85/0.95/0.8/0.4 in the
source; they are encoded as integer hundredths (90/85/95/80/40).
-/

/-- Test for the whitespace characters stripped by Python `str.strip()`
(space, tab, newline, carriage return, vertical tab, form feed). -/
def pySpace (c : Char) : Bool :=
  c == ' ' || c == '\t' || c == '\n' || c == '\r' || c == '\x0b' || c == '\x0c'

/-- Python `str.lower()` over the ASCII range (the backend only feeds ASCII
keyword tests with ASCII-lowered text). -/
def pyLower (s : String) : String :=
  String.mk (s.data.map Char.toLower)

def dropTrailingSpaces (l : List Char) : List Char :=
  (l.reverse.dropWhile pySpace).reverse

/-- Python `str.strip()`. -/
def pyStrip (s : String) : String :=
  String.mk (dropTrailingSpaces (s.data.dropWhile pySpace))

def isPrefixOfCS : List Char → List Char → Bool
  | [], _ => true
  | _ :: _, [] => false
  | a :: as, b :: bs => a == b && isPrefixOfCS as bs

def isSubCS (sub : List Char) : List Char → Bool
  | [] => sub.isEmpty
  | c :: rest => isPrefixOfCS sub (c :: rest) || isSubCS sub rest

/-- Python substring test `sub in t`. -/
def containsSub (t sub : String) : Bool :=
  isSubCS sub.data t.data

/-- All maximal digit runs of a character list, in order: the result of
Python `re.findall(r"\d+", t)`. -/
def digitRunsAux : List Char → List Char → List String
  | [], acc => if acc.isEmpty then [] else [String.mk acc.reverse]
  | c :: cs, acc =>
    if c.isDigit then digitRunsAux cs (c :: acc)
    else if acc.isEmpty then digitRunsAux cs []
    else String.mk acc.reverse :: digitRunsAux cs []

def digitRuns (t : String) : List String :=
  digitRunsAux t.data []

/-- The loop in backend.py lines 118-122: the first digit run whose length
is exactly 6, if any (`for d in digits: if len(d) == 6: pnr = d; break`). -/
def firstLen6 : List String → Option String
  | [] => none
  | d :: ds => if d.length == 6 then some d else firstLen6 ds

/-- A classification result as returned by `rule_based_nlu`: the `entities`
dict of the source is either `{}` or `{"pnr": pnr}` with `pnr` possibly
`None`; both `{}` and `{"pnr": None}` are modelled as `pnr = none`, which is
exactly how `map_intent_to_action` observes them (`entities.get("pnr")`).
`confidence` is in hundredths. -/
structure NLUResult where
  intent : String
  confidence : Nat
  pnr : Option String
deriving DecidableEq

def BOOKING_WORDS : List String := ["book", "booking", "reserve", "ticket"]

def FLIGHT_WORDS : List String := ["pnr", "status", "flight status", "where is my flight", "flight"]

def AGENT_WORDS : List String := ["agent", "human", "representative", "operator"]

def GREETING_WORDS : List String := ["hi", "hello", "hey", "good morning", "good evening"]

def ENDCALL_WORDS : List String := ["bye", "goodbye", "thanks", "thank you"]

/-- Python `any(x in t for x in ws)`. -/
def anyWordIn (t : String) (ws : List String) : Bool :=
  ws.any (fun x => containsSub t x)

/-- `rule_based_nlu` (backend.py lines 110-131). -/
def rule_based_nlu (text : String) : NLUResult :=
  let t := pyStrip (pyLower text)
  if anyWordIn t BOOKING_WORDS then
    { intent := "booking_enquiry", confidence := 90, pnr := none }
  else if anyWordIn t FLIGHT_WORDS then
    { intent := "flight_status", confidence := 85, pnr := firstLen6 (digitRuns t) }
  else if anyWordIn t AGENT_WORDS then
    { intent := "agent_transfer", confidence := 95, pnr := none }
  else if anyWordIn t GREETING_WORDS then
    { intent := "greeting", confidence := 80, pnr := none }
  else if anyWordIn t ENDCALL_WORDS then
    { intent := "end_call", confidence := 95, pnr := none }
  else
    { intent := "unknown", confidence := 40, pnr := none }

/-- A JSON-ish payload value, covering the value shapes the webhook handler
distinguishes: strings, nested dicts, and null/absent. -/
inductive PVal where
  | pstr : String → PVal
  | pdict : List (String × PVal) → PVal
  | pnull : PVal

/-- One session dict of `active_calls` (made in `make_call_session`,
backend.py lines 85-98).  `nlp_context` is flattened into the fields
`history` (speaker, text, timestamp), `slots` and `last_nlu`. -/
structure Session where
  call_id : String
  caller : String
  created_at : Nat
  current_menu : String
  menu_path : List String
  conv_mode : Bool
  history : List (String × PVal × Nat)
  slots : List (String × String)
  last_nlu : Option NLUResult
  pnr_buffer : String
  status : String
  ended_at : Option Nat

/-- The two module-level globals: `active_calls` (insertion-ordered dict,
modelled as an association list) and `call_history`. -/
structure Store where
  active_calls : List (String × Session)
  call_history : List Session

def emptyStore : Store := { active_calls := [], call_history := [] }

def lookupCall (m : List (String × Session)) (k : String) : Option Session :=
  match m with
  | [] => none
  | (k2, s) :: rest => if k2 == k then some s else lookupCall rest k

def updateCall (m : List (String × Session)) (k : String) (s : Session) :
    List (String × Session) :=
  match m with
  | [] => []
  | (k2, s2) :: rest =>
    (k2, if k2 == k then s else s2) :: updateCall rest k s

def removeCall (m : List (String × Session)) (k : String) :
    List (String × Session) :=
  match m with
  | [] => []
  | (k2, s2) :: rest =>
    if k2 == k then removeCall rest k else (k2, s2) :: removeCall rest k

/-- Python dict assignment `active_calls[k] = s`: overwrite in place if the
key exists, else append (dicts preserve insertion order). -/
def setCall (m : List (String × Session)) (k : String) (s : Session) :
    List (String × Session) :=
  if (lookupCall m k).isSome then updateCall m k s else m ++ [(k, s)]

/-- The fresh session dict built by `make_call_session` (backend.py lines
85-98); the generated `uuid4` and `utcnow` are inputs here. -/
def initSession (call_id caller : String) (now : Nat) : Session :=
  { call_id := call_id
    caller := caller
    created_at := now
    current_menu := "main"
    menu_path := ["main"]
    conv_mode := true
    history := []
    slots := []
    last_nlu := none
    pnr_buffer := ""
    status := "active"
    ended_at := none }

def make_call_session (st : Store) (call_id caller : String) (now : Nat) : Store :=
  { st with active_calls := setCall st.active_calls call_id (initSession call_id caller now) }

/-- `cleanup_call` (backend.py lines 100-105): pop the session from
`active_calls`; if it was there, set `ended_at` and append it to
`call_history`.  Note: the `status` field is not written. -/
def cleanup_call (st : Store) (call_id : String) (now : Nat) :
    Option Session × Store :=
  match lookupCall st.active_calls call_id with
  | none => (none, st)
  | some c =>
    (some { c with ended_at := some now },
     { active_calls := removeCall st.active_calls call_id
       call_history := st.call_history ++ [{ c with ended_at := some now }] })

/-- One option in a menu node: `{"action": ..., "target": ..., "message": ...}`. -/
structure MenuOption where
  action : String
  target : Option String
  message : String

structure MenuNode where
  prompt : String
  options : List (String × MenuOption)

def lookupA {α : Type} (m : List (String × α)) (k : String) : Option α :=
  match m with
  | [] => none
  | (k2, v) :: rest => if k2 == k then some v else lookupA rest k

/-- `MENU_STRUCTURE` (backend.py lines 40-63). -/
def MENU_STRUCTURE : List (String × MenuNode) :=
  [("main",
    { prompt := "Welcome to Air India. Press 1 for Booking. Press 2 for Flight Status. Press 3 for Agent."
      options :=
        [("1", { action := "goto_menu", target := some "booking", message := "Going to Booking." }),
         ("2", { action := "goto_menu", target := some "flight_status", message := "Going to Flight Status." }),
         ("3", { action := "transfer_agent", target := none, message := "Transferring to agent." })] }),
   ("booking",
    { prompt := "Booking menu: Press 1 Domestic. Press 2 International. Press 0 Back."
      options :=
        [("1", { action := "start_booking_domestic", target := none, message := "Domestic booking selected." }),
         ("2", { action := "start_booking_international", target := none, message := "International booking selected." }),
         ("0", { action := "goto_menu", target := some "main", message := "Returning to main menu." })] }),
   ("flight_status",
    { prompt := "Please speak or enter 6-digit PNR. Press 0 Back."
      options :=
        [("0", { action := "goto_menu", target := some "main", message := "Returning to main menu." })] })]

/-- `MENU_STRUCTURE.get(k, {}).get("prompt", default)`. -/
def menuPrompt (k : String) (default : String) : String :=
  match lookupA MENU_STRUCTURE k with
  | some n => n.prompt
  | none => default

/-- `MENU_STRUCTURE.get(menu, {}).get("options", {}).get(digit)`
(backend.py line 378). -/
def resolveOption (menuKey digit : String) : Option MenuOption :=
  match lookupA MENU_STRUCTURE menuKey with
  | none => none
  | some n => lookupA n.options digit

/-- Python `str.isdigit()`: non-empty and all digit characters. -/
def isDigitStr (d : String) : Bool :=
  !d.data.isEmpty && d.data.all Char.isDigit

def pnrDone (pnr : String) : String :=
  "PNR " ++ pnr ++ " is confirmed. Flight AI101 is on time."

def remainingMsg (n : Int) : String :=
  "Received digit. " ++ toString n ++ " digits to go."

/-- Responses of the `/ivr/dtmf` endpoint: HTTP 404, the
`{"action": "pnr_lookup", "message": ...}` dict, or a plain
`{"message": ...}` dict. -/
inductive DtmfResult where
  | notFound : DtmfResult
  | pnrLookup : String → DtmfResult
  | reply : String → DtmfResult
deriving DecidableEq

/-- `dtmf_endpoint` (backend.py lines 347-401).  The dispatched
`hangup_call` task (line 370) is applied as its eventual `cleanup_call`
effect. -/
def dtmf_endpoint (st : Store) (call_id digit : String) (now : Nat) :
    DtmfResult × Store :=
  match lookupCall st.active_calls call_id with
  | none => (DtmfResult.notFound, st)
  | some call =>
    if call.current_menu == "flight_status" && isDigitStr digit then
      if (call.pnr_buffer ++ digit).length == 6 then
        (DtmfResult.pnrLookup (pnrDone (call.pnr_buffer ++ digit)),
         (cleanup_call
            { st with active_calls :=
                updateCall st.active_calls call_id { call with pnr_buffer := "" } }
            call_id now).2)
      else
        (DtmfResult.reply
           (remainingMsg ((6 : Int) - (((call.pnr_buffer ++ digit).length : Int)))),
         { st with active_calls :=
                     updateCall st.active_calls call_id
                       ({ call with pnr_buffer := call.pnr_buffer ++ digit }) })
    else
      match resolveOption call.current_menu digit with
      | none => (DtmfResult.reply "Invalid choice, please try again.", st)
      | some opt =>
        if opt.action == "goto_menu" then
          (DtmfResult.reply (menuPrompt (opt.target.getD "") ""),
           { st with active_calls :=
                       updateCall st.active_calls call_id
                         ({ call with current_menu := opt.target.getD ""
                                      menu_path := call.menu_path ++ [opt.target.getD ""] }) })
        else if opt.action == "transfer_agent" then
          (DtmfResult.reply "transfer initiated",
           { st with active_calls :=
               updateCall st.active_calls call_id { call with status := "transferring" } })
        else if opt.action == "end_call" then
          (DtmfResult.reply "call ended", (cleanup_call st call_id now).2)
        else
          (DtmfResult.reply "Unhandled DTMF action", st)

/-- An action dict as produced by `map_intent_to_action`
(`{"action": ..., "target_menu": ..., "response": ...}`). -/
structure ActionDict where
  action : String
  target_menu : Option String
  response : String
deriving DecidableEq

def UNKNOWN_ACTION : ActionDict :=
  { action := "reprompt", target_menu := none
    response := "Sorry, I didn\x27t understand. Could you please repeat?" }

/-- `INTENT_ACTION_MAP` (backend.py lines 153-160). -/
def INTENT_ACTION_MAP : List (String × ActionDict) :=
  [("booking_enquiry",
    { action := "goto_menu", target_menu := some "booking"
      response := "Sure — I can help with your booking. Domestic or international?" }),
   ("flight_status",
    { action := "flight_status_check", target_menu := some "flight_status"
      response := "Please tell me your 6-digit PNR." }),
   ("agent_transfer",
    { action := "transfer_agent", target_menu := none
      response := "I\x27ll transfer you to an agent now." }),
   ("greeting",
    { action := "none", target_menu := none
      response := "Hello! How can I help you today?" }),
   ("end_call",
    { action := "end_call", target_menu := none
      response := "Thanks for calling. Goodbye!" }),
   ("unknown", UNKNOWN_ACTION)]

/-- Python truthiness of `entities.get("pnr")`: `None` and `""` are falsy. -/
def optStrTruthy : Option String → Bool
  | none => false
  | some s => !(s == "")

/-- `map_intent_to_action` (backend.py lines 162-189).  The `call_session`
argument is accepted and ignored exactly as in the source. -/
def map_intent_to_action (nlu : NLUResult) (call_session : Session) : ActionDict :=
  let intent := nlu.intent
  let mapping := (lookupA INTENT_ACTION_MAP intent).getD UNKNOWN_ACTION
  if intent == "flight_status" then
    if optStrTruthy nlu.pnr then
      { action := "speak_and_hangup", target_menu := none
        response := "PNR " ++ nlu.pnr.getD "" ++ " is confirmed. Flight AI101 from Mumbai-Delhi is Confirmed." }
    else
      { action := "ask_for_pnr", target_menu := none, response := mapping.response }
  else if intent == "booking_enquiry" then
    { action := "goto_menu", target_menu := some "booking", response := mapping.response }
  else if intent == "agent_transfer" then
    { action := "transfer_agent", target_menu := none, response := mapping.response }
  else if intent == "end_call" then
    { action := "speak_and_hangup", target_menu := none, response := mapping.response }
  else if intent == "greeting" then
    { action := "speak", target_menu := none, response := mapping.response }
  else
    { action := "reprompt", target_menu := none, response := mapping.response }

/-- Outcome dicts of `handle_transcribed_text`: the `ValueError` on an
unknown id, a `{"status": "ok", "action": ..., "menu"?: ..., "spoken": ...}`
dict, or the `{"status": "fail", ...}` fallback. -/
inductive TranscriptResult where
  | unknownCall : TranscriptResult
  | ok : String → Option String → String → TranscriptResult
  | fail : String → String → TranscriptResult
deriving DecidableEq

/-- `handle_transcribed_text` (backend.py lines 215-280) with the rule-based
classifier (`LLM_ENABLED = False`, so `nlu_parse` is `rule_based_nlu`).
The session dict is mutated in place in the source, so the transcript turn
and `last_nlu` are visible in the store in every branch; the awaited
`hangup_call` of `speak_and_hangup` is `cleanup_call`. -/
def handle_transcribed_text (st : Store) (call_id transcript : String) (now : Nat) :
    TranscriptResult × Store :=
  match lookupCall st.active_calls call_id with
  | none => (TranscriptResult.unknownCall, st)
  | some session0 =>
    let nlu := rule_based_nlu transcript
    let session := { session0 with
                       history := session0.history ++ [("user", PVal.pstr transcript, now)]
                       last_nlu := some nlu }
    let st1 := { st with active_calls := updateCall st.active_calls call_id session }
    let action := map_intent_to_action nlu session
    if action.action == "goto_menu" then
      (TranscriptResult.ok "goto_menu" (some (action.target_menu.getD ""))
         (menuPrompt (action.target_menu.getD "") action.response),
       { st1 with active_calls :=
                    updateCall st1.active_calls call_id
                      ({ session with
                           current_menu := action.target_menu.getD ""
                           menu_path := session.menu_path ++ [action.target_menu.getD ""] }) })
    else if action.action == "ask_for_pnr" then
      (TranscriptResult.ok "ask_for_pnr" none action.response,
       { st1 with active_calls :=
                    updateCall st1.active_calls call_id
                      ({ session with current_menu := "flight_status" }) })
    else if action.action == "speak" then
      (TranscriptResult.ok "speak" none action.response, st1)
    else if action.action == "speak_and_hangup" then
      (TranscriptResult.ok "hangup" none action.response,
       (cleanup_call st1 call_id now).2)
    else if action.action == "transfer_agent" then
      (TranscriptResult.ok "transfer" none action.response,
       { st1 with active_calls :=
                    updateCall st1.active_calls call_id
                      ({ session with status := "transferring" }) })
    else if action.action == "reprompt" || action.action == "unknown" then
      (TranscriptResult.ok "reprompt" none action.response, st1)
    else
      (TranscriptResult.fail "transfer" "transferring", st1)

/-- Python truthiness of a payload value. -/
def truthy : PVal → Bool
  | PVal.pstr s => !(s == "")
  | PVal.pdict d => !d.isEmpty
  | PVal.pnull => false

def hasKey (d : List (String × PVal)) (k : String) : Bool :=
  (lookupA d k).isSome

/-- `payload.get(k)`: `None` for a missing key. -/
def getVal (d : List (String × PVal)) (k : String) : PVal :=
  (lookupA d k).getD PVal.pnull

/-- Python `a or b`. -/
def pyOr (a b : PVal) : PVal := if truthy a then a else b

def keyList (d : List (String × PVal)) : List String := d.map (fun p => p.1)

/-- Python `str(list(payload.keys()))` as used in the 400 diagnostic. -/
def pyReprKeys : List String → String
  | [] => "[]"
  | k :: ks =>
    "[" ++ String.intercalate ", " ((k :: ks).map (fun k2 => "\x27" ++ k2 ++ "\x27")) ++ "]"

def sttDetail (d : List (String × PVal)) : String :=
  "Could not parse STT payload. Received keys: " ++ pyReprKeys (keyList d)

/-- A decoded JSON request body: a dict, or any non-dict JSON value. -/
inductive Payload where
  | jdict : List (String × PVal) → Payload
  | jother : Payload

/-- Responses of `/ivr/stt_callback`: HTTP 200 accepted, HTTP 400 with the
diagnostic detail, HTTP 404, or an unhandled Python exception
(`AttributeError`/`TypeError`), which FastAPI surfaces as a generic 500. -/
inductive SttResult where
  | accepted : SttResult
  | badRequest : String → SttResult
  | callNotFound : SttResult
  | crash : SttResult
deriving DecidableEq

def isBadRequest : SttResult → Bool
  | SttResult.badRequest _ => true
  | _ => false

/-- Lines 430-432 of backend.py: the Azure-shaped extraction.  Result `none`
models the `AttributeError` raised by `payload["recognizeResult"].get("text")`
when `recognizeResult` is not a dict. -/
def azureExtract (d : List (String × PVal)) : Option (PVal × PVal) :=
  if hasKey d "callConnectionId" && hasKey d "recognizeResult" then
    match getVal d "recognizeResult" with
    | PVal.pdict rd => some (getVal d "callConnectionId", getVal rd "text")
    | _ => none
  else
    some (PVal.pnull, PVal.pnull)

/-- Lines 429-439 of backend.py: Azure shape, then Twilio shape, then the
generic key scrape. -/
def extractIds (d : List (String × PVal)) : Option (PVal × PVal) :=
  match azureExtract d with
  | none => none
  | some (c0, t0) =>
    let ct :=
      if !truthy t0 && hasKey d "CallSid" && hasKey d "SpeechResult" then
        (getVal d "CallSid", getVal d "SpeechResult")
      else (c0, t0)
    let t2 :=
      if !truthy ct.2 then
        pyOr (getVal d "transcript") (pyOr (getVal d "text") (getVal d "recognizedText"))
      else ct.2
    some (ct.1, t2)

/-- `stt_callback` (backend.py lines 414-453).  A non-dict JSON body skips
the `isinstance` block, leaves `call_id`/`transcript` as `None`, and then
crashes with `AttributeError` while evaluating `list(payload.keys())` inside
the 400 diagnostic (line 443); this is `SttResult.crash`.  A non-string
truthy call id crashes in `call_id not in active_calls` (`TypeError`).
The dispatched `handle_transcribed_text` task is applied as its eventual
store effect; a truthy non-string transcript makes that task append the turn
and then raise inside `rule_based_nlu` (`.lower()` on a non-string). -/
def stt_callback (st : Store) (payload : Payload) (now : Nat) : SttResult × Store :=
  match payload with
  | Payload.jother => (SttResult.crash, st)
  | Payload.jdict d =>
    match extractIds d with
    | none => (SttResult.crash, st)
    | some (cid, tr) =>
      if !truthy cid || !truthy tr then
        (SttResult.badRequest (sttDetail d), st)
      else
        match cid with
        | PVal.pstr c =>
          if (lookupCall st.active_calls c).isSome then
            match tr with
            | PVal.pstr t => (SttResult.accepted, (handle_transcribed_text st c t now).2)
            | trv =>
              match lookupCall st.active_calls c with
              | some s =>
                (SttResult.accepted,
                 { st with active_calls :=
                             updateCall st.active_calls c
                               ({ s with history := s.history ++ [("user", trv, now)] }) })
              | none => (SttResult.accepted, st)
          else (SttResult.callNotFound, st)
        | _ => (SttResult.crash, st)

/-- One inbound event hitting the store: `/ivr/start`, `/ivr/dtmf`,
`/ivr/sim_speech` (or the core of `/ivr/live_stt`), `/ivr/stt_callback`,
`/ivr/end`. -/
inductive Op where
  | start : String → String → Nat → Op
  | dtmf : String → String → Nat → Op
  | speech : String → String → Nat → Op
  | sttCb : Payload → Nat → Op
  | endCall : String → Nat → Op

def applyOp (st : Store) : Op → Store
  | Op.start cid caller now => make_call_session st cid caller now
  | Op.dtmf cid digit now => (dtmf_endpoint st cid digit now).2
  | Op.speech cid text now => (handle_transcribed_text st cid text now).2
  | Op.sttCb p now => (stt_callback st p now).2
  | Op.endCall cid now => (cleanup_call st cid now).2

/-- Stores reachable from the initial empty state by any sequence of
endpoint calls. -/
inductive Reachable : Store → Prop where
  | init : Reachable emptyStore
  | step (st : Store) (op : Op) : Reachable st → Reachable (applyOp st op)

/-- How one endpoint call may change the menu coordinates of one live
session: leave them alone, navigate (append the new key to the path), or
move to slot collection (`current_menu := "flight_status"` with no path
append, the `ask_for_pnr` branch). -/
def MenuStep (s s2 : Session) : Prop :=
  (s2.menu_path = s.menu_path ∧ s2.current_menu = s.current_menu) ∨
  (∃ t : String, s2.menu_path = s.menu_path ++ [t] ∧ s2.current_menu = t) ∨
  (s2.menu_path = s.menu_path ∧ s2.current_menu = "flight_status")

/-- How one endpoint call may change the status of one live session. -/
def StatusStep (s s2 : Session) : Prop :=
  s2.status = s.status ∨ s2.status = "transferring"

/-- The spec's keyword groups in the spec's fixed precedence order
booking > flight-status > agent-transfer > greeting > end-call, each with
its confidence (hundredths). -/
def keywordGroups : List (String × List String × Nat) :=
  [("booking_enquiry", BOOKING_WORDS, 90),
   ("flight_status", FLIGHT_WORDS, 85),
   ("agent_transfer", AGENT_WORDS, 95),
   ("greeting", GREETING_WORDS, 80),
   ("end_call", ENDCALL_WORDS, 95)]

/-- Modelled from the spec: the reference classification algorithm as the
spec words it — lower-case and trim the input, test the ordered keyword
groups and return the first match, for flight-status select the first
exactly-6-digit run among all digit runs as the `pnr` slot (absent
otherwise), and yield unknown with confidence 0.4 and no entities when
nothing matches.  Compared against `rule_based_nlu` in claim C6. -/
def spec_classifier (text : String) : NLUResult :=
  let t := pyStrip (pyLower text)
  match keywordGroups.find? (fun g => anyWordIn t g.2.1) with
  | some g =>
    { intent := g.1, confidence := g.2.2
      pnr := if g.1 == "flight_status" then (digitRuns t).find? (fun d => d.length == 6) else none }
  | none => { intent := "unknown", confidence := 40, pnr := none }

/-- Invariant of claim C2 (amended): every live session has a non-empty
`menu_path` that ends with `current_menu`, except that `current_menu` may be
the flight-status node (reached by `ask_for_pnr` without a path append). -/
def MenuInv (st : Store) : Prop :=
  ∀ cid s, lookupCall st.active_calls cid = some s →
    s.menu_path ≠ [] ∧
    (s.menu_path.getLast? = some s.current_menu ∨ s.current_menu = "flight_status")

def demoSession : Session := initSession "c1" "+911234567890" 0

def demoStore : Store := { active_calls := [("c1", demoSession)], call_history := [] }

def demoBookingSession : Session :=
  { demoSession with current_menu := "booking", menu_path := ["main", "booking"] }

def demoBookingStore : Store :=
  { active_calls := [("c1", demoBookingSession)], call_history := [] }

def demoFSSession : Session := { demoSession with current_menu := "flight_status" }

def demoFSStore : Store :=
  { active_calls := [("c1", demoFSSession)], call_history := [] }

theorem lookupCall_update_self (m : List (String × Session)) (k : String) (s : Session) :
    lookupCall (updateCall m k s) k = (lookupCall m k).map (fun _ => s) := by
  induction m with
  | nil => rfl
  | cons p rest ih =>
    obtain ⟨k2, s2⟩ := p
    by_cases h : k2 = k
    · subst h
      simp [lookupCall, updateCall]
    · simp [lookupCall, updateCall, beq_iff_eq, h, ih]

theorem lookupCall_update_ne (m : List (String × Session)) (k j : String) (s : Session)
    (h : j ≠ k) :
    lookupCall (updateCall m k s) j = lookupCall m j := by
  induction m with
  | nil => rfl
  | cons p rest ih =>
    obtain ⟨k2, s2⟩ := p
    by_cases h2 : k2 = j
    · subst h2
      have hk : ¬k2 = k := fun hh => h (hh ▸ rfl)
      simp [lookupCall, updateCall, beq_iff_eq, hk]
    · simp [lookupCall, updateCall, beq_iff_eq, h2, ih]

theorem lookupCall_remove_self (m : List (String × Session)) (k : String) :
    lookupCall (removeCall m k) k = none := by
  induction m with
  | nil => rfl
  | cons p rest ih =>
    obtain ⟨k2, s2⟩ := p
    by_cases h : k2 = k
    · simp [removeCall, h, ih]
    · simp [lookupCall, removeCall, beq_iff_eq, h, ih]

theorem lookupCall_remove_ne (m : List (String × Session)) (k j : String)
    (h : j ≠ k) :
    lookupCall (removeCall m k) j = lookupCall m j := by
  induction m with
  | nil => rfl
  | cons p rest ih =>
    obtain ⟨k2, s2⟩ := p
    by_cases h1 : k2 = k
    · subst h1
      have h2 : ¬k2 = j := fun hh => h hh.symm
      simp [lookupCall, removeCall, beq_iff_eq, h2, ih]
    · by_cases h2 : k2 = j
      · subst h2
        simp [lookupCall, removeCall, beq_iff_eq, h1, ih]
      · simp [lookupCall, removeCall, beq_iff_eq, h1, h2, ih]

theorem lookupCall_append (m l : List (String × Session)) (j : String) :
    lookupCall (m ++ l) j =
      match lookupCall m j with
      | some s => some s
      | none => lookupCall l j := by
  induction m with
  | nil => simp [lookupCall]
  | cons p rest ih =>
    obtain ⟨k2, s2⟩ := p
    by_cases h : k2 = j
    · simp [lookupCall, beq_iff_eq, h]
    · simp [lookupCall, beq_iff_eq, h, ih]

theorem lookupCall_set_self (m : List (String × Session)) (k : String) (s : Session) :
    lookupCall (setCall m k s) k = some s := by
  unfold setCall
  cases hl : lookupCall m k with
  | none =>
    simp [hl, lookupCall_append, lookupCall, beq_iff_eq]
  | some s0 =>
    simp [hl, lookupCall_update_self]

theorem lookupCall_set_ne (m : List (String × Session)) (k j : String) (s : Session)
    (h : j ≠ k) :
    lookupCall (setCall m k s) j = lookupCall m j := by
  unfold setCall
  cases hl : lookupCall m k with
  | none =>
    simp only [hl, Option.isSome_none, Bool.false_eq_true, if_false, lookupCall_append]
    cases hj : lookupCall m j with
    | none => simp [lookupCall, beq_iff_eq, Ne.symm h]
    | some s0 => simp
  | some s0 =>
    simp [hl, lookupCall_update_ne m k j s h]

theorem cleanup_call_eq (st : Store) (cid : String) (now : Nat) (s : Session)
    (h : lookupCall st.active_calls cid = some s) :
    cleanup_call st cid now =
      (some { s with ended_at := some now },
       { active_calls := removeCall st.active_calls cid
         call_history := st.call_history ++ [{ s with ended_at := some now }] }) := by
  unfold cleanup_call
  rw [h]

theorem cleanup_call_notfound (st : Store) (cid : String) (now : Nat)
    (h : lookupCall st.active_calls cid = none) :
    cleanup_call st cid now = (none, st) := by
  unfold cleanup_call
  rw [h]

theorem dtmf_accum_step (st : Store) (cid digit : String) (now : Nat) (s : Session)
    (h : lookupCall st.active_calls cid = some s)
    (hm : s.current_menu = "flight_status")
    (hd : isDigitStr digit = true)
    (hn : ((s.pnr_buffer ++ digit).length == 6) = false) :
    (dtmf_endpoint st cid digit now).1 =
        DtmfResult.reply (remainingMsg ((6 : Int) - ((s.pnr_buffer ++ digit).length : Int))) ∧
    (dtmf_endpoint st cid digit now).2.active_calls =
        updateCall st.active_calls cid ({ s with pnr_buffer := s.pnr_buffer ++ digit }) ∧
    (dtmf_endpoint st cid digit now).2.call_history = st.call_history := by
  unfold dtmf_endpoint
  rw [h]
  have hn2 : ¬(s.pnr_buffer.length + digit.length = 6) := by simpa using hn
  simp [hm, hd, hn2]

theorem dtmf_complete_step (st : Store) (cid digit : String) (now : Nat) (s : Session)
    (h : lookupCall st.active_calls cid = some s)
    (hm : s.current_menu = "flight_status")
    (hd : isDigitStr digit = true)
    (hn : ((s.pnr_buffer ++ digit).length == 6) = true) :
    (dtmf_endpoint st cid digit now).1 =
        DtmfResult.pnrLookup (pnrDone (s.pnr_buffer ++ digit)) ∧
    (dtmf_endpoint st cid digit now).2.active_calls =
        removeCall (updateCall st.active_calls cid ({ s with pnr_buffer := "" })) cid ∧
    (dtmf_endpoint st cid digit now).2.call_history =
        st.call_history ++ [{ s with pnr_buffer := "", ended_at := some now }] := by
  unfold dtmf_endpoint
  rw [h]
  have h2 : lookupCall (updateCall st.active_calls cid ({ s with pnr_buffer := "" })) cid
      = some ({ s with pnr_buffer := "" }) := by
    rw [lookupCall_update_self, h]
    rfl
  rw [hm] at h2
  have hn2 : s.pnr_buffer.length + digit.length = 6 := by simpa using hn
  simp [hm, hd, hn2, cleanup_call, h2]

theorem master_dtmf (st : Store) (cid2 digit : String) (now : Nat) (cid : String) (s2 : Session)
    (h : lookupCall ((dtmf_endpoint st cid2 digit now).2).active_calls cid = some s2) :
    ∃ s, lookupCall st.active_calls cid = some s ∧ MenuStep s s2 ∧ StatusStep s s2 := by
  unfold dtmf_endpoint at h
  split at h
  · exact ⟨s2, h, Or.inl ⟨rfl, rfl⟩, Or.inl rfl⟩
  · rename_i call hl
    split at h
    · split at h
      · -- buffer completion: speak, hang up, cleanup
        rw [cleanup_call_eq _ _ _ ({ call with pnr_buffer := "" })
              (by dsimp only; rw [lookupCall_update_self, hl]; rfl)] at h
        dsimp only at h
        by_cases hc : cid = cid2
        · subst hc
          rw [lookupCall_remove_self] at h
          simp at h
        · rw [lookupCall_remove_ne _ _ _ hc, lookupCall_update_ne _ _ _ _ hc] at h
          exact ⟨s2, h, Or.inl ⟨rfl, rfl⟩, Or.inl rfl⟩
      · -- buffer accumulation
        dsimp only at h
        by_cases hc : cid = cid2
        · subst hc
          rw [lookupCall_update_self, hl] at h
          obtain rfl : ({ call with pnr_buffer := call.pnr_buffer ++ digit }) = s2 := by
            simpa using h
          exact ⟨call, hl, Or.inl ⟨rfl, rfl⟩, Or.inl rfl⟩
        · rw [lookupCall_update_ne _ _ _ _ hc] at h
          exact ⟨s2, h, Or.inl ⟨rfl, rfl⟩, Or.inl rfl⟩
    · split at h
      · -- unmapped digit: store unchanged
        exact ⟨s2, h, Or.inl ⟨rfl, rfl⟩, Or.inl rfl⟩
      · rename_i opt hopt
        split at h
        · -- goto_menu
          dsimp only at h
          by_cases hc : cid = cid2
          · subst hc
            rw [lookupCall_update_self, hl] at h
            obtain rfl :
                ({ call with current_menu := opt.target.getD ""
                             menu_path := call.menu_path ++ [opt.target.getD ""] }) = s2 := by
              simpa using h
            exact ⟨call, hl, Or.inr (Or.inl ⟨opt.target.getD "", rfl, rfl⟩), Or.inl rfl⟩
          · rw [lookupCall_update_ne _ _ _ _ hc] at h
            exact ⟨s2, h, Or.inl ⟨rfl, rfl⟩, Or.inl rfl⟩
        · split at h
          · -- transfer_agent
            dsimp only at h
            by_cases hc : cid = cid2
            · subst hc
              rw [lookupCall_update_self, hl] at h
              obtain rfl : ({ call with status := "transferring" }) = s2 := by simpa using h
              exact ⟨call, hl, Or.inl ⟨rfl, rfl⟩, Or.inr rfl⟩
            · rw [lookupCall_update_ne _ _ _ _ hc] at h
              exact ⟨s2, h, Or.inl ⟨rfl, rfl⟩, Or.inl rfl⟩
          · split at h
            · -- end_call (no catalog entry carries it, but the code handles it)
              rw [cleanup_call_eq _ _ _ call hl] at h
              dsimp only at h
              by_cases hc : cid = cid2
              · subst hc
                rw [lookupCall_remove_self] at h
                simp at h
              · rw [lookupCall_remove_ne _ _ _ hc] at h
                exact ⟨s2, h, Or.inl ⟨rfl, rfl⟩, Or.inl rfl⟩
            · -- unhandled DTMF action: store unchanged
              exact ⟨s2, h, Or.inl ⟨rfl, rfl⟩, Or.inl rfl⟩

theorem master_speech (st : Store) (cid2 text : String) (now : Nat) (cid : String) (s2 : Session)
    (h : lookupCall ((handle_transcribed_text st cid2 text now).2).active_calls cid = some s2) :
    ∃ s, lookupCall st.active_calls cid = some s ∧ MenuStep s s2 ∧ StatusStep s s2 := by
  unfold handle_transcribed_text at h
  split at h
  · exact ⟨s2, h, Or.inl ⟨rfl, rfl⟩, Or.inl rfl⟩
  · rename_i session0 hl
    dsimp only at h
    by_cases hc : cid = cid2
    · subst hc
      split at h
      · -- goto_menu: two updates of the same key
        rw [lookupCall_update_self, lookupCall_update_self, hl] at h
        simp only [Option.map_some'] at h
        injection h with h2
        subst h2
        exact ⟨session0, hl, Or.inr (Or.inl ⟨_, rfl, rfl⟩), Or.inl rfl⟩
      · split at h
        · -- ask_for_pnr
          rw [lookupCall_update_self, lookupCall_update_self, hl] at h
          simp only [Option.map_some'] at h
          injection h with h2
          subst h2
          exact ⟨session0, hl, Or.inr (Or.inr ⟨rfl, rfl⟩), Or.inl rfl⟩
        · split at h
          · -- speak
            rw [lookupCall_update_self, hl] at h
            simp only [Option.map_some'] at h
            injection h with h2
            subst h2
            exact ⟨session0, hl, Or.inl ⟨rfl, rfl⟩, Or.inl rfl⟩
          · split at h
            · -- speak_and_hangup: cleanup of the once-updated store
              rw [cleanup_call_eq _ _ _ _
                    (by dsimp only; rw [lookupCall_update_self, hl]; rfl)] at h
              dsimp only at h
              rw [lookupCall_remove_self] at h
              simp at h
            · split at h
              · -- transfer_agent
                rw [lookupCall_update_self, lookupCall_update_self, hl] at h
                simp only [Option.map_some'] at h
                injection h with h2
                subst h2
                exact ⟨session0, hl, Or.inl ⟨rfl, rfl⟩, Or.inr rfl⟩
              · split at h
                · -- reprompt
                  rw [lookupCall_update_self, hl] at h
                  simp only [Option.map_some'] at h
                  injection h with h2
                  subst h2
                  exact ⟨session0, hl, Or.inl ⟨rfl, rfl⟩, Or.inl rfl⟩
                · -- fallback
                  rw [lookupCall_update_self, hl] at h
                  simp only [Option.map_some'] at h
                  injection h with h2
                  subst h2
                  exact ⟨session0, hl, Or.inl ⟨rfl, rfl⟩, Or.inl rfl⟩
    · split at h
      · rw [lookupCall_update_ne _ _ _ _ hc, lookupCall_update_ne _ _ _ _ hc] at h
        exact ⟨s2, h, Or.inl ⟨rfl, rfl⟩, Or.inl rfl⟩
      · split at h
        · rw [lookupCall_update_ne _ _ _ _ hc, lookupCall_update_ne _ _ _ _ hc] at h
          exact ⟨s2, h, Or.inl ⟨rfl, rfl⟩, Or.inl rfl⟩
        · split at h
          · rw [lookupCall_update_ne _ _ _ _ hc] at h
            exact ⟨s2, h, Or.inl ⟨rfl, rfl⟩, Or.inl rfl⟩
          · split at h
            · rw [cleanup_call_eq _ _ _ _
                    (by dsimp only; rw [lookupCall_update_self, hl]; rfl)] at h
              dsimp only at h
              rw [lookupCall_remove_ne _ _ _ hc, lookupCall_update_ne _ _ _ _ hc] at h
              exact ⟨s2, h, Or.inl ⟨rfl, rfl⟩, Or.inl rfl⟩
            · split at h
              · rw [lookupCall_update_ne _ _ _ _ hc, lookupCall_update_ne _ _ _ _ hc] at h
                exact ⟨s2, h, Or.inl ⟨rfl, rfl⟩, Or.inl rfl⟩
              · split at h
                · rw [lookupCall_update_ne _ _ _ _ hc] at h
                  exact ⟨s2, h, Or.inl ⟨rfl, rfl⟩, Or.inl rfl⟩
                · rw [lookupCall_update_ne _ _ _ _ hc] at h
                  exact ⟨s2, h, Or.inl ⟨rfl, rfl⟩, Or.inl rfl⟩

theorem master_cleanup (st : Store) (cid2 : String) (now : Nat) (cid : String) (s2 : Session)
    (h : lookupCall ((cleanup_call st cid2 now).2).active_calls cid = some s2) :
    lookupCall st.active_calls cid = some s2 := by
  unfold cleanup_call at h
  split at h
  · exact h
  · rename_i c hl
    dsimp only at h
    by_cases hc : cid = cid2
    · subst hc
      rw [lookupCall_remove_self] at h
      simp at h
    · rw [lookupCall_remove_ne _ _ _ hc] at h
      exact h

theorem lookupCall_update_cases (m : List (String × Session)) (k j : String)
    (s s2 : Session)
    (h : lookupCall (updateCall m k s) j = some s2) :
    (s2 = s ∧ j = k) ∨ lookupCall m j = some s2 := by
  by_cases hc : j = k
  · subst hc
    rw [lookupCall_update_self] at h
    cases hl : lookupCall m j with
    | none => rw [hl] at h; simp at h
    | some s0 =>
      rw [hl] at h
      simp only [Option.map_some'] at h
      injection h with h2
      exact Or.inl ⟨h2.symm, rfl⟩
  · rw [lookupCall_update_ne _ _ _ _ hc] at h
    exact Or.inr h

theorem master_stt (st : Store) (p : Payload) (now : Nat) (cid : String) (s2 : Session)
    (h : lookupCall ((stt_callback st p now).2).active_calls cid = some s2) :
    ∃ s, lookupCall st.active_calls cid = some s ∧ MenuStep s s2 ∧ StatusStep s s2 := by
  unfold stt_callback at h
  split at h
  · exact ⟨s2, h, Or.inl ⟨rfl, rfl⟩, Or.inl rfl⟩
  · split at h
    · exact ⟨s2, h, Or.inl ⟨rfl, rfl⟩, Or.inl rfl⟩
    · split at h
      · exact ⟨s2, h, Or.inl ⟨rfl, rfl⟩, Or.inl rfl⟩
      · split at h
        · split at h
          · split at h
            · exact master_speech _ _ _ _ _ _ h
            · split at h
              · rename_i s0 hl0
                dsimp only at h
                rcases lookupCall_update_cases _ _ _ _ _ h with ⟨rfl, rfl⟩ | h2
                · exact ⟨s0, hl0, Or.inl ⟨rfl, rfl⟩, Or.inl rfl⟩
                · exact ⟨s2, h2, Or.inl ⟨rfl, rfl⟩, Or.inl rfl⟩
              · exact ⟨s2, h, Or.inl ⟨rfl, rfl⟩, Or.inl rfl⟩
          · exact ⟨s2, h, Or.inl ⟨rfl, rfl⟩, Or.inl rfl⟩
        · exact ⟨s2, h, Or.inl ⟨rfl, rfl⟩, Or.inl rfl⟩

theorem menuStep_preserves (s s2 : Session)
    (hp : s.menu_path ≠ [] ∧
          (s.menu_path.getLast? = some s.current_menu ∨ s.current_menu = "flight_status"))
    (hm : MenuStep s s2) :
    s2.menu_path ≠ [] ∧
    (s2.menu_path.getLast? = some s2.current_menu ∨ s2.current_menu = "flight_status") := by
  obtain ⟨hne, hl⟩ := hp
  rcases hm with ⟨h1, h2⟩ | ⟨t, h1, h2⟩ | ⟨h1, h2⟩
  · rw [h1, h2]
    exact ⟨hne, hl⟩
  · rw [h1, h2]
    refine ⟨by simp, Or.inl ?_⟩
    simp [List.getLast?_concat]
  · rw [h1, h2]
    exact ⟨hne, Or.inr rfl⟩

theorem menuStep_length (s s2 : Session) (hm : MenuStep s s2) :
    s.menu_path.length ≤ s2.menu_path.length := by
  rcases hm with ⟨h1, _⟩ | ⟨t, h1, _⟩ | ⟨h1, _⟩ <;> simp [h1]

theorem menuInv_reachable (st : Store) (h : Reachable st) : MenuInv st := by
  induction h with
  | init =>
    intro cid s hs
    simp [emptyStore, lookupCall] at hs
  | step st0 op hr ih =>
    cases op with
    | start cid2 caller now =>
      intro cid s hs
      simp only [applyOp, make_call_session] at hs
      by_cases hc : cid = cid2
      · subst hc
        rw [lookupCall_set_self] at hs
        injection hs with hs2
        subst hs2
        refine ⟨by simp [initSession], Or.inl ?_⟩
        simp [initSession]
      · rw [lookupCall_set_ne _ _ _ _ hc] at hs
        exact ih cid s hs
    | dtmf cid2 digit now =>
      intro cid s hs
      obtain ⟨s0, h0, hm, _⟩ := master_dtmf st0 cid2 digit now cid s hs
      exact menuStep_preserves s0 s (ih cid s0 h0) hm
    | speech cid2 text now =>
      intro cid s hs
      obtain ⟨s0, h0, hm, _⟩ := master_speech st0 cid2 text now cid s hs
      exact menuStep_preserves s0 s (ih cid s0 h0) hm
    | sttCb p now =>
      intro cid s hs
      obtain ⟨s0, h0, hm, _⟩ := master_stt st0 p now cid s hs
      exact menuStep_preserves s0 s (ih cid s0 h0) hm
    | endCall cid2 now =>
      intro cid s hs
      exact ih cid s (master_cleanup st0 cid2 now cid s hs)

theorem firstLen6_eq_find (l : List String) :
    firstLen6 l = l.find? (fun d => d.length == 6) := by
  induction l with
  | nil => rfl
  | cons d ds ih =>
    by_cases hd : d.length = 6
    · simp [firstLen6, List.find?, hd]
    · have hd2 : (d.length == 6) = false := by simp [hd]
      simp [firstLen6, List.find?, hd2, ih]

/-- Claim C6 (confirmed): for every input text, the reference classifier
`rule_based_nlu` behaves exactly as the spec words it: it lower-cases and
trims the input, tests the keyword groups in the fixed precedence order
booking > flight-status > agent-transfer > greeting > end-call, returns the
first matching intent, yields unknown with confidence 0.4 (encoded 40) and
no entities when nothing matches, and for flight-status sets the `pnr`
entity to the first exactly-6-digit run of the text, leaving it absent when
there is no such run.  `spec_classifier` is the spec-worded algorithm. -/
theorem claim_C6 (text : String) : rule_based_nlu text = spec_classifier text := by
  unfold rule_based_nlu spec_classifier
  cases h1 : anyWordIn (pyStrip (pyLower text)) BOOKING_WORDS with
  | true => simp [keywordGroups, List.find?, h1]
  | false =>
    cases h2 : anyWordIn (pyStrip (pyLower text)) FLIGHT_WORDS with
    | true => simp [keywordGroups, List.find?, h1, h2, firstLen6_eq_find]
    | false =>
      cases h3 : anyWordIn (pyStrip (pyLower text)) AGENT_WORDS with
      | true => simp [keywordGroups, List.find?, h1, h2, h3]
      | false =>
        cases h4 : anyWordIn (pyStrip (pyLower text)) GREETING_WORDS with
        | true => simp [keywordGroups, List.find?, h1, h2, h3, h4]
        | false =>
          cases h5 : anyWordIn (pyStrip (pyLower text)) ENDCALL_WORDS with
          | true => simp [keywordGroups, List.find?, h1, h2, h3, h4, h5]
          | false => simp [keywordGroups, List.find?, h1, h2, h3, h4, h5]

/-- Claim C7 (confirmed): `HandleDigit` (`dtmf_endpoint`) and
`HandleTranscript` (`handle_transcribed_text`) on a call id absent from the
live store always answer with the not-found error (HTTP 404 resp.
`ValueError`) and leave the whole store — every session, the live map and
the history — unchanged. -/
theorem claim_C7 (st : Store) (cid digit text : String) (now : Nat)
    (h : lookupCall st.active_calls cid = none) :
    dtmf_endpoint st cid digit now = (DtmfResult.notFound, st) ∧
    handle_transcribed_text st cid text now = (TranscriptResult.unknownCall, st) := by
  constructor
  · unfold dtmf_endpoint
    rw [h]
  · unfold handle_transcribed_text
    rw [h]

theorem claim_C7_witness :
    dtmf_endpoint emptyStore "nope" "1" 0 = (DtmfResult.notFound, emptyStore) ∧
    handle_transcribed_text emptyStore "nope" "hello" 0 =
      (TranscriptResult.unknownCall, emptyStore) :=
  claim_C7 emptyStore "nope" "1" "hello" 0 rfl

/-- Claim C9 (confirmed): for a session in menu navigation (not in the
flight-status digit-collection case), a digit with no mapping in the current
menu's options yields the "invalid choice" reply and the store is returned
unchanged: `currentMenuKey` is untouched and nothing is appended to
`menuPath`. -/
theorem claim_C9 (st : Store) (cid digit : String) (now : Nat) (s : Session)
    (h : lookupCall st.active_calls cid = some s)
    (hnav : (s.current_menu == "flight_status" && isDigitStr digit) = false)
    (hopt : resolveOption s.current_menu digit = none) :
    dtmf_endpoint st cid digit now =
      (DtmfResult.reply "Invalid choice, please try again.", st) := by
  unfold dtmf_endpoint
  rw [h]
  simp [hnav, hopt]

theorem claim_C9_witness :
    dtmf_endpoint demoBookingStore "c1" "9" 5 =
      (DtmfResult.reply "Invalid choice, please try again.", demoBookingStore) :=
  claim_C9 demoBookingStore "c1" "9" 5 demoBookingSession rfl rfl rfl

theorem resolver_ask (nlu : NLUResult) (sess : Session)
    (hint : nlu.intent = "flight_status") (hpnr : nlu.pnr = none) :
    map_intent_to_action nlu sess =
      { action := "ask_for_pnr", target_menu := none
        response := "Please tell me your 6-digit PNR." } := by
  unfold map_intent_to_action
  rw [hint, hpnr]
  rfl

/-- Claim C4 (confirmed): for a flight-status classification, if the `pnr`
entity carries a (truthy, i.e. non-empty) value the Action Resolver returns
the `speak_and_hangup` action with the synthesized confirmation message and
never `ask_for_pnr`; if the entity is absent it returns `ask_for_pnr` with
the slot prompt, and executing that action in `handle_transcribed_text` sets
the session's `current_menu` to the flight-status node. -/
theorem claim_C4 (conf : Nat) (p : String) (sess : Session)
    (st : Store) (cid text : String) (now : Nat) (s : Session)
    (hp : p ≠ "")
    (hs : lookupCall st.active_calls cid = some s)
    (hint : (rule_based_nlu text).intent = "flight_status")
    (hpnr : (rule_based_nlu text).pnr = none) :
    map_intent_to_action { intent := "flight_status", confidence := conf, pnr := some p } sess =
      { action := "speak_and_hangup", target_menu := none
        response := "PNR " ++ p ++ " is confirmed. Flight AI101 from Mumbai-Delhi is Confirmed." } ∧
    map_intent_to_action { intent := "flight_status", confidence := conf, pnr := none } sess =
      { action := "ask_for_pnr", target_menu := none
        response := "Please tell me your 6-digit PNR." } ∧
    (lookupCall ((handle_transcribed_text st cid text now).2).active_calls cid).map
        Session.current_menu = some "flight_status" := by
  refine ⟨?_, resolver_ask _ sess rfl rfl, ?_⟩
  · have hp2 : (p == "") = false := by simp [hp]
    unfold map_intent_to_action
    simp [optStrTruthy, hp2]
  · unfold handle_transcribed_text
    rw [hs]
    dsimp only
    rw [resolver_ask _ _ hint hpnr]
    dsimp only
    simp only [show (("ask_for_pnr" : String) == "goto_menu") = false from rfl,
               show (("ask_for_pnr" : String) == "ask_for_pnr") = true from rfl,
               Bool.false_eq_true, if_false, if_true]
    rw [lookupCall_update_self, lookupCall_update_self, hs]
    rfl

theorem claim_C4_witness :
    map_intent_to_action { intent := "flight_status", confidence := 85, pnr := some "654321" } demoSession =
      { action := "speak_and_hangup", target_menu := none
        response := "PNR " ++ "654321" ++ " is confirmed. Flight AI101 from Mumbai-Delhi is Confirmed." } ∧
    map_intent_to_action { intent := "flight_status", confidence := 85, pnr := none } demoSession =
      { action := "ask_for_pnr", target_menu := none
        response := "Please tell me your 6-digit PNR." } ∧
    (lookupCall ((handle_transcribed_text demoStore "c1" "flight status" 1).2).active_calls "c1").map
        Session.current_menu = some "flight_status" :=
  claim_C4 85 "654321" demoSession demoStore "c1" "flight status" 1 demoSession
    (by decide) rfl rfl rfl

/-- Claim C10 (confirmed): on a session whose `current_menu` is the
flight-status node, `HandleDigit` with digit "0" always takes the
digit-accumulation path — either completing the 6-digit buffer (a PNR
lookup that hangs up) or appending "0" to `pnr_buffer` and staying on the
flight-status node.  In particular the session is never moved to the main
menu, so the catalog's "Press 0 Back" transition of `flight_status` is
unreachable by digit input. -/
theorem claim_C10 (st : Store) (cid : String) (now : Nat) (s : Session)
    (h : lookupCall st.active_calls cid = some s)
    (hm : s.current_menu = "flight_status") :
    ((dtmf_endpoint st cid "0" now).1 = DtmfResult.pnrLookup (pnrDone (s.pnr_buffer ++ "0")) ∨
     ((dtmf_endpoint st cid "0" now).1 =
        DtmfResult.reply (remainingMsg ((6 : Int) - ((s.pnr_buffer ++ "0").length : Int))) ∧
      lookupCall ((dtmf_endpoint st cid "0" now).2).active_calls cid =
        some ({ s with pnr_buffer := s.pnr_buffer ++ "0" }))) ∧
    (lookupCall ((dtmf_endpoint st cid "0" now).2).active_calls cid).map Session.current_menu ≠
      some "main" := by
  cases h6 : ((s.pnr_buffer ++ "0").length == 6) with
  | true =>
    obtain ⟨e1, e2, _⟩ := dtmf_complete_step st cid "0" now s h hm rfl h6
    refine ⟨Or.inl e1, ?_⟩
    rw [e2, lookupCall_remove_self]
    simp
  | false =>
    obtain ⟨e1, e2, _⟩ := dtmf_accum_step st cid "0" now s h hm rfl h6
    have hl : lookupCall ((dtmf_endpoint st cid "0" now).2).active_calls cid =
        some ({ s with pnr_buffer := s.pnr_buffer ++ "0" }) := by
      rw [e2, lookupCall_update_self, h]
      rfl
    refine ⟨Or.inr ⟨e1, hl⟩, ?_⟩
    rw [hl]
    simp [hm]

theorem claim_C10_witness :
    ((dtmf_endpoint demoFSStore "c1" "0" 3).1 =
        DtmfResult.pnrLookup (pnrDone (demoFSSession.pnr_buffer ++ "0")) ∨
     ((dtmf_endpoint demoFSStore "c1" "0" 3).1 =
        DtmfResult.reply (remainingMsg ((6 : Int) - ((demoFSSession.pnr_buffer ++ "0").length : Int))) ∧
      lookupCall ((dtmf_endpoint demoFSStore "c1" "0" 3).2).active_calls "c1" =
        some ({ demoFSSession with pnr_buffer := demoFSSession.pnr_buffer ++ "0" }))) ∧
    (lookupCall ((dtmf_endpoint demoFSStore "c1" "0" 3).2).active_calls "c1").map
        Session.current_menu ≠ some "main" :=
  claim_C10 demoFSStore "c1" 3 demoFSSession rfl rfl

/-- Claim C5 (confirmed): feeding digits "1".."6" one at a time to a live
session on the flight-status node with an empty buffer yields, for each of
the first five digits, a "N digits to go" reply that appends the digit to
`pnr_buffer` and keeps the session in slot collection with no history
append (no termination); the sixth digit triggers exactly one
speak-and-hangup outcome (`pnr_lookup`) whose spoken text contains
"123456", and exactly one termination: the session leaves the live store
and exactly one record (with cleared buffer and `ended_at` set) is appended
to the history. -/
theorem claim_C5 (st : Store) (cid : String) (s : Session) (t1 t2 t3 t4 t5 t6 : Nat)
    (h : lookupCall st.active_calls cid = some s)
    (hm : s.current_menu = "flight_status")
    (hb : s.pnr_buffer = "") :
    ((dtmf_endpoint st cid "1" t1).1 = DtmfResult.reply "Received digit. 5 digits to go." ∧
     (dtmf_endpoint (dtmf_endpoint st cid "1" t1).2 cid "2" t2).1 =
        DtmfResult.reply "Received digit. 4 digits to go." ∧
     (dtmf_endpoint (dtmf_endpoint (dtmf_endpoint st cid "1" t1).2 cid "2" t2).2 cid "3" t3).1 =
        DtmfResult.reply "Received digit. 3 digits to go." ∧
     (dtmf_endpoint (dtmf_endpoint (dtmf_endpoint (dtmf_endpoint st cid "1" t1).2 cid "2" t2).2
        cid "3" t3).2 cid "4" t4).1 =
        DtmfResult.reply "Received digit. 2 digits to go." ∧
     (dtmf_endpoint (dtmf_endpoint (dtmf_endpoint (dtmf_endpoint (dtmf_endpoint st cid "1" t1).2
        cid "2" t2).2 cid "3" t3).2 cid "4" t4).2 cid "5" t5).1 =
        DtmfResult.reply "Received digit. 1 digits to go.") ∧
    (lookupCall ((dtmf_endpoint (dtmf_endpoint (dtmf_endpoint (dtmf_endpoint (dtmf_endpoint st
        cid "1" t1).2 cid "2" t2).2 cid "3" t3).2 cid "4" t4).2 cid "5" t5).2).active_calls cid =
        some ({ s with pnr_buffer := "12345" }) ∧
     (lookupCall ((dtmf_endpoint (dtmf_endpoint (dtmf_endpoint (dtmf_endpoint (dtmf_endpoint st
        cid "1" t1).2 cid "2" t2).2 cid "3" t3).2 cid "4" t4).2 cid "5" t5).2).active_calls cid).map
        Session.current_menu = some "flight_status" ∧
     ((dtmf_endpoint (dtmf_endpoint (dtmf_endpoint (dtmf_endpoint (dtmf_endpoint st
        cid "1" t1).2 cid "2" t2).2 cid "3" t3).2 cid "4" t4).2 cid "5" t5).2).call_history =
        st.call_history) ∧
    ((dtmf_endpoint ((dtmf_endpoint (dtmf_endpoint (dtmf_endpoint (dtmf_endpoint (dtmf_endpoint st
        cid "1" t1).2 cid "2" t2).2 cid "3" t3).2 cid "4" t4).2 cid "5" t5).2) cid "6" t6).1 =
        DtmfResult.pnrLookup "PNR 123456 is confirmed. Flight AI101 is on time." ∧
     containsSub "PNR 123456 is confirmed. Flight AI101 is on time." "123456" = true ∧
     lookupCall ((dtmf_endpoint ((dtmf_endpoint (dtmf_endpoint (dtmf_endpoint (dtmf_endpoint
        (dtmf_endpoint st cid "1" t1).2 cid "2" t2).2 cid "3" t3).2 cid "4" t4).2 cid "5" t5).2)
        cid "6" t6).2).active_calls cid = none ∧
     ((dtmf_endpoint ((dtmf_endpoint (dtmf_endpoint (dtmf_endpoint (dtmf_endpoint (dtmf_endpoint st
        cid "1" t1).2 cid "2" t2).2 cid "3" t3).2 cid "4" t4).2 cid "5" t5).2) cid "6" t6).2).call_history =
        st.call_history ++ [{ s with pnr_buffer := "", ended_at := some t6 }]) := by
  have hb1 : s.pnr_buffer ++ "1" = "1" := by rw [hb]; rfl
  obtain ⟨e1, ea1, eh1⟩ := dtmf_accum_step st cid "1" t1 s h hm rfl (by rw [hb1]; rfl)
  have hl1 : lookupCall ((dtmf_endpoint st cid "1" t1).2).active_calls cid =
      some ({ s with pnr_buffer := "1" }) := by
    rw [ea1, lookupCall_update_self, h, hb1]
    rfl
  obtain ⟨e2, ea2, eh2⟩ := dtmf_accum_step _ cid "2" t2 _ hl1 hm rfl (by rfl)
  have hl2 : lookupCall ((dtmf_endpoint (dtmf_endpoint st cid "1" t1).2 cid "2" t2).2).active_calls cid =
      some ({ s with pnr_buffer := "12" }) := by
    rw [ea2, lookupCall_update_self, hl1]
    rfl
  obtain ⟨e3, ea3, eh3⟩ := dtmf_accum_step _ cid "3" t3 _ hl2 hm rfl (by rfl)
  have hl3 : lookupCall ((dtmf_endpoint (dtmf_endpoint (dtmf_endpoint st cid "1" t1).2 cid "2" t2).2
      cid "3" t3).2).active_calls cid = some ({ s with pnr_buffer := "123" }) := by
    rw [ea3, lookupCall_update_self, hl2]
    rfl
  obtain ⟨e4, ea4, eh4⟩ := dtmf_accum_step _ cid "4" t4 _ hl3 hm rfl (by rfl)
  have hl4 : lookupCall ((dtmf_endpoint (dtmf_endpoint (dtmf_endpoint (dtmf_endpoint st cid "1" t1).2
      cid "2" t2).2 cid "3" t3).2 cid "4" t4).2).active_calls cid =
      some ({ s with pnr_buffer := "1234" }) := by
    rw [ea4, lookupCall_update_self, hl3]
    rfl
  obtain ⟨e5, ea5, eh5⟩ := dtmf_accum_step _ cid "5" t5 _ hl4 hm rfl (by rfl)
  have hl5 : lookupCall ((dtmf_endpoint (dtmf_endpoint (dtmf_endpoint (dtmf_endpoint (dtmf_endpoint st
      cid "1" t1).2 cid "2" t2).2 cid "3" t3).2 cid "4" t4).2 cid "5" t5).2).active_calls cid =
      some ({ s with pnr_buffer := "12345" }) := by
    rw [ea5, lookupCall_update_self, hl4]
    rfl
  obtain ⟨e6, ea6, eh6⟩ := dtmf_complete_step _ cid "6" t6 _ hl5 hm rfl (by rfl)
  refine ⟨⟨?_, ?_, ?_, ?_, ?_⟩, ⟨hl5, ?_, ?_⟩, ⟨?_, by decide, ?_, ?_⟩⟩
  · rw [e1, hb1]
    rfl
  · rw [e2]
    rfl
  · rw [e3]
    rfl
  · rw [e4]
    rfl
  · rw [e5]
    rfl
  · rw [hl5]
    simp [hm]
  · rw [eh5, eh4, eh3, eh2, eh1]
  · rw [e6]
    rfl
  · rw [ea6, lookupCall_remove_self]
  · rw [eh6, eh5, eh4, eh3, eh2, eh1]

theorem claim_C5_witness :
    (dtmf_endpoint ((dtmf_endpoint (dtmf_endpoint (dtmf_endpoint (dtmf_endpoint (dtmf_endpoint
        demoFSStore "c1" "1" 1).2 "c1" "2" 2).2 "c1" "3" 3).2 "c1" "4" 4).2 "c1" "5" 5).2)
        "c1" "6" 6).1 =
        DtmfResult.pnrLookup "PNR 123456 is confirmed. Flight AI101 is on time." ∧
    containsSub "PNR 123456 is confirmed. Flight AI101 is on time." "123456" = true ∧
    lookupCall ((dtmf_endpoint ((dtmf_endpoint (dtmf_endpoint (dtmf_endpoint (dtmf_endpoint
        (dtmf_endpoint demoFSStore "c1" "1" 1).2 "c1" "2" 2).2 "c1" "3" 3).2 "c1" "4" 4).2
        "c1" "5" 5).2) "c1" "6" 6).2).active_calls "c1" = none ∧
    ((dtmf_endpoint ((dtmf_endpoint (dtmf_endpoint (dtmf_endpoint (dtmf_endpoint (dtmf_endpoint
        demoFSStore "c1" "1" 1).2 "c1" "2" 2).2 "c1" "3" 3).2 "c1" "4" 4).2 "c1" "5" 5).2)
        "c1" "6" 6).2).call_history =
        demoFSStore.call_history ++ [{ demoFSSession with pnr_buffer := "", ended_at := some 6 }] :=
  (claim_C5 demoFSStore "c1" demoFSSession 1 2 3 4 5 6 rfl rfl rfl).2.2

/-- Claim C1 (corrected).  What holds: the `status` field written by
`HandleDigit`/`HandleTranscript` is only ever "transferring" (so the only
status transition is Active to Transferring; no operation ever stores an
"ended" status), sessions are created Active, and an Ended session — one
removed to History — can no longer be reached, so it is never mutated
(claim C7).  What the original claim gets wrong: Transferring is not
sticky; see the counterexample. -/
theorem claim_C1 (st : Store) (cid2 digit text caller : String) (now : Nat) (cid : String)
    (s s1 s2 : Session)
    (h : lookupCall st.active_calls cid = some s) :
    (lookupCall ((dtmf_endpoint st cid2 digit now).2).active_calls cid = some s1 →
       s1.status = s.status ∨ s1.status = "transferring") ∧
    (lookupCall ((handle_transcribed_text st cid2 text now).2).active_calls cid = some s2 →
       s2.status = s.status ∨ s2.status = "transferring") ∧
    (initSession cid caller now).status = "active" := by
  refine ⟨?_, ?_, rfl⟩
  · intro h1
    obtain ⟨s0, h0, _, hs⟩ := master_dtmf st cid2 digit now cid s1 h1
    rw [h0] at h
    injection h with h2
    subst h2
    exact hs
  · intro h2
    obtain ⟨s0, h0, _, hs⟩ := master_speech st cid2 text now cid s2 h2
    rw [h0] at h
    injection h with h3
    subst h3
    exact hs

theorem claim_C1_witness :
    (lookupCall ((dtmf_endpoint demoStore "c1" "1" 7).2).active_calls "c1" = some demoSession →
       demoSession.status = demoSession.status ∨ demoSession.status = "transferring") ∧
    (lookupCall ((handle_transcribed_text demoStore "c1" "hello" 7).2).active_calls "c1" =
        some demoSession →
       demoSession.status = demoSession.status ∨ demoSession.status = "transferring") ∧
    (initSession "c1" "alice" 7).status = "active" :=
  claim_C1 demoStore "c1" "1" "hello" "alice" 7 "c1" demoSession demoSession demoSession rfl

/-- Claim C1 counterexample: after `HandleDigit(id, "3")` from the main menu
the session's status is Transferring with `currentMenuKey = "main"`, yet a
subsequent `HandleDigit(id, "1")` still mutates `currentMenuKey` to
"booking" — Transferring is not sticky, refuting the original claim. -/
theorem claim_C1_counterexample :
    (lookupCall ((dtmf_endpoint (make_call_session emptyStore "c1" "alice" 0) "c1" "3" 1).2).active_calls
        "c1").map Session.status = some "transferring" ∧
    (lookupCall ((dtmf_endpoint (make_call_session emptyStore "c1" "alice" 0) "c1" "3" 1).2).active_calls
        "c1").map Session.current_menu = some "main" ∧
    (lookupCall ((dtmf_endpoint ((dtmf_endpoint (make_call_session emptyStore "c1" "alice" 0)
        "c1" "3" 1).2) "c1" "1" 2).2).active_calls "c1").map Session.current_menu = some "booking" :=
  ⟨rfl, rfl, rfl⟩

/-- Claim C2 (corrected).  What holds for every reachable state: every live
session's `menuPath` is non-empty and never decreases in length across a
`HandleDigit` or `HandleTranscript` call, and its last element equals
`currentMenuKey` unless `currentMenuKey` is the flight-status node (reached
via the `ask_for_pnr` action, which moves `currentMenuKey` without
appending to `menuPath`) — the unconditional "last element equals
currentMenuKey" of the original claim is refuted by the counterexample. -/
theorem claim_C2 (st : Store) (hr : Reachable st) (cid : String) (s : Session)
    (h : lookupCall st.active_calls cid = some s)
    (cid2 digit text : String) (now : Nat) (s1 s2 : Session) :
    (s.menu_path ≠ [] ∧
     (s.menu_path.getLast? = some s.current_menu ∨ s.current_menu = "flight_status")) ∧
    (lookupCall ((dtmf_endpoint st cid2 digit now).2).active_calls cid = some s1 →
       s.menu_path.length ≤ s1.menu_path.length) ∧
    (lookupCall ((handle_transcribed_text st cid2 text now).2).active_calls cid = some s2 →
       s.menu_path.length ≤ s2.menu_path.length) := by
  refine ⟨menuInv_reachable st hr cid s h, ?_, ?_⟩
  · intro h1
    obtain ⟨s0, h0, hm0, _⟩ := master_dtmf st cid2 digit now cid s1 h1
    rw [h0] at h
    injection h with h2
    subst h2
    exact menuStep_length _ _ hm0
  · intro h2
    obtain ⟨s0, h0, hm0, _⟩ := master_speech st cid2 text now cid s2 h2
    rw [h0] at h
    injection h with h3
    subst h3
    exact menuStep_length _ _ hm0

theorem claim_C2_witness :
    ((initSession "c1" "alice" 0).menu_path ≠ [] ∧
     ((initSession "c1" "alice" 0).menu_path.getLast? =
        some (initSession "c1" "alice" 0).current_menu ∨
      (initSession "c1" "alice" 0).current_menu = "flight_status")) ∧
    (lookupCall ((dtmf_endpoint (applyOp emptyStore (Op.start "c1" "alice" 0)) "c1" "1" 1).2).active_calls
        "c1" = some demoSession →
       (initSession "c1" "alice" 0).menu_path.length ≤ demoSession.menu_path.length) ∧
    (lookupCall ((handle_transcribed_text (applyOp emptyStore (Op.start "c1" "alice" 0))
        "c1" "hello" 1).2).active_calls "c1" = some demoSession →
       (initSession "c1" "alice" 0).menu_path.length ≤ demoSession.menu_path.length) :=
  claim_C2 (applyOp emptyStore (Op.start "c1" "alice" 0))
    (Reachable.step emptyStore (Op.start "c1" "alice" 0) Reachable.init)
    "c1" (initSession "c1" "alice" 0) rfl "c1" "1" "hello" 1 demoSession demoSession

/-- Claim C2 counterexample: `HandleTranscript(id, "flight status")` on a
fresh session resolves to `ask_for_pnr`, which sets
`currentMenuKey = "flight_status"` without appending to `menuPath`; the
path stays `["main"]`, so its last element no longer equals
`currentMenuKey`, refuting the original claim. -/
theorem claim_C2_counterexample :
    (lookupCall ((handle_transcribed_text (make_call_session emptyStore "c1" "alice" 0) "c1"
        "flight status" 1).2).active_calls "c1").map
        (fun s => (s.menu_path, s.current_menu, s.menu_path.getLast? == some s.current_menu)) =
      some (["main"], "flight_status", false) :=
  rfl

/-- Claim C3 (corrected).  `Terminate` (`cleanup_call`) on a live session
sets `endedAt`, and in the same step removes the record from the live store
and appends that very record to History (so it is in History and no longer
live — never in both); but it does not set `status` to Ended: the `status`
field keeps its prior value (the Ended state is represented only by the
record's presence in History).  See the counterexample for the status
part of the original claim. -/
theorem claim_C3 (st : Store) (cid : String) (now : Nat) (s : Session)
    (h : lookupCall st.active_calls cid = some s) :
    cleanup_call st cid now =
      (some ({ s with ended_at := some now }),
       { active_calls := removeCall st.active_calls cid
         call_history := st.call_history ++ [{ s with ended_at := some now }] }) ∧
    lookupCall ((cleanup_call st cid now).2).active_calls cid = none ∧
    ({ s with ended_at := some now } : Session).status = s.status := by
  refine ⟨cleanup_call_eq st cid now s h, ?_, rfl⟩
  rw [cleanup_call_eq st cid now s h]
  exact lookupCall_remove_self _ _

theorem claim_C3_witness :
    cleanup_call demoStore "c1" 9 =
      (some ({ demoSession with ended_at := some 9 }),
       { active_calls := removeCall demoStore.active_calls "c1"
         call_history := demoStore.call_history ++ [{ demoSession with ended_at := some 9 }] }) ∧
    lookupCall ((cleanup_call demoStore "c1" 9).2).active_calls "c1" = none ∧
    ({ demoSession with ended_at := some 9 } : Session).status = demoSession.status :=
  claim_C3 demoStore "c1" 9 demoSession rfl

/-- Claim C3 counterexample: terminating a freshly created session leaves
its History record with `status = "active"` (the code never writes an
"ended" status), while `ended_at` is set — refuting "sets status to
Ended". -/
theorem claim_C3_counterexample :
    ((cleanup_call (make_call_session emptyStore "c1" "alice" 0) "c1" 5).2.call_history.map
        Session.status = ["active"]) ∧
    (("active" : String) ≠ "ended") ∧
    ((cleanup_call (make_call_session emptyStore "c1" "alice" 0) "c1" 5).2.call_history.map
        Session.ended_at = [some 5]) :=
  ⟨rfl, by decide, rfl⟩

/-- Claim C8 (code bug).  A webhook payload whose JSON body is not a dict
(e.g. a list) yields no call id and no transcript, but instead of the
specified diagnostic 400 rejection the handler crashes with an unhandled
`AttributeError` while evaluating `list(payload.keys())` for the diagnostic
(modelled as `SttResult.crash`, surfaced as a generic 500) — though still
with no session mutation.  For dict-shaped payloads the diagnostic 400
naming the received keys is produced as specified, also with no mutation. -/
theorem claim_C8 :
    stt_callback emptyStore Payload.jother 0 = (SttResult.crash, emptyStore) ∧
    isBadRequest (stt_callback emptyStore Payload.jother 0).1 = false ∧
    stt_callback emptyStore (Payload.jdict [("foo", PVal.pstr "bar")]) 0 =
      (SttResult.badRequest "Could not parse STT payload. Received keys: [\x27foo\x27]",
       emptyStore) :=
  ⟨rfl, rfl, rfl⟩
